import Mathlib

/-!
Verification of the rtp2httpd per-connection data plane against its source
(`src/connection.c`, `src/stream.c`).  Machine integers are modelled as `Nat`
(sizes, counters) and `Int` (timestamps, return codes); C `double` arithmetic
on burst factors and EWMA averages is modelled over `ℚ`.  Collaborator modules
whose sources are not available (`zerocopy.c`, `http.c`, `fcc.c`) are modelled
from the specification where a claim depends on them; each such definition
carries a doc comment saying so.
-/

/-- Rational of a natural number.  Used instead of the `Nat.cast` coercion so
that concrete witnesses reduce inside the kernel; `ratOfNat_eq_cast` bridges
to the coercion. -/
def ratOfNat (n : Nat) : ℚ := mkRat (Int.ofNat n) 1

/-- Modelled from the spec: the buffer pool's fixed payload size.  The source
uses the compile-time macro `BUFFER_POOL_BUFFER_SIZE` (a single 2 KiB class per
the design notes); its header is not among the provided sources. -/
def BUFFER_POOL_BUFFER_SIZE : Nat := 2048

/-- Modelled from the spec: the pool's initial size (`initial_size` attribute).
Only consulted by `connection_calculate_queue_limit` when `num_buffers = 0`;
the exact value is not in the provided sources. -/
def BUFFER_POOL_INITIAL_SIZE : Nat := 128

/-- Constant from `connection.c` line 29. -/
def CONN_QUEUE_MIN_BUFFERS : Nat := 64

/-- Constant from `connection.c` line 30 (`3.0`). -/
def CONN_QUEUE_BURST_FACTOR : ℚ := 3

/-- Constant from `connection.c` line 31 (`1.5`). -/
def CONN_QUEUE_BURST_FACTOR_CONGESTED : ℚ := 3 / 2

/-- Constant from `connection.c` line 32 (`1.0`). -/
def CONN_QUEUE_BURST_FACTOR_DRAIN : ℚ := 1

/-- Constant from `connection.c` line 33 (`0.2`). -/
def CONN_QUEUE_EWMA_ALPHA : ℚ := 1 / 5

/-- Constant from `connection.c` line 34 (`1.5`). -/
def CONN_QUEUE_SLOW_FACTOR : ℚ := 3 / 2

/-- Constant from `connection.c` line 35 (`1.1`). -/
def CONN_QUEUE_SLOW_EXIT_FACTOR : ℚ := 11 / 10

/-- Constant from `connection.c` line 36. -/
def CONN_QUEUE_SLOW_DEBOUNCE_MS : Int := 3000

/-- Constant from `connection.c` line 37 (`0.85`). -/
def CONN_QUEUE_HIGH_UTIL_THRESHOLD : ℚ := 17 / 20

/-- Constant from `connection.c` line 38 (`0.95`). -/
def CONN_QUEUE_DRAIN_UTIL_THRESHOLD : ℚ := 19 / 20

/-- Constant from `connection.c` line 39 (`0.9`, named `..._SLOW_LIMIT_RATIO`). -/
def CONN_QUEUE_SLOW_LIMIT_FRAC : ℚ := 9 / 10

/-- Constant from `connection.c` line 40 (`0.75`, named `..._SLOW_EXIT_LIMIT_RATIO`). -/
def CONN_QUEUE_SLOW_EXIT_LIMIT_FRAC : ℚ := 3 / 4

/-- Constant from `connection.c` line 41 (`0.8`). -/
def CONN_QUEUE_SLOW_CLAMP_FACTOR : ℚ := 4 / 5

/-- The buffer pool fields read by the backpressure controller
(`zerocopy_state.pool`; struct layout taken from the spec's data model §3,
field names as used in `connection.c`). -/
structure PoolState where
  num_buffers : Nat
  num_free : Nat
  max_buffers : Nat
  low_watermark : Nat
deriving DecidableEq, Repr

/-- The connection fields touched by the send-queue backpressure controller
(`connection_t` in `connection.c`).  The zero-copy queue is modelled as the
list of the queued buffers' payloads (each item one buffer, `data_size` =
`List.length`), so `zc_queue.num_queued` is `queue.length`. -/
structure ConnQueueState where
  queue : List (List Nat)
  queue_limit_bytes : Nat
  queue_bytes_highwater : Nat
  queue_buffers_highwater : Nat
  dropped_packets : Nat
  dropped_bytes : Nat
  backpressure_events : Nat
  queue_avg_bytes : ℚ
  slow_active : Bool
  slow_candidate_since : Int
deriving DecidableEq, Repr

/-- Direct translation of `connection_compute_limit_bytes`
(`connection.c` lines 64-89).  The `(size_t)((double)fair_bytes * burst_factor)`
cast is modelled as the rational floor (all burst factors used are
non-negative). -/
def connection_compute_limit_bytes (pool : PoolState) (fair_bytes : Nat)
    (burst_factor : ℚ) : Nat :=
  let limit0 : Nat := ((ratOfNat fair_bytes * burst_factor).floor).toNat
  let limit1 : Nat :=
    if 0 < pool.max_buffers then
      let global_cap := pool.max_buffers * BUFFER_POOL_BUFFER_SIZE
      let reserve := CONN_QUEUE_MIN_BUFFERS * BUFFER_POOL_BUFFER_SIZE
      if reserve < global_cap then
        let hard_cap := global_cap - reserve
        if hard_cap < limit0 then hard_cap else limit0
      else
        if global_cap < limit0 then global_cap else limit0
    else limit0
  if limit1 < BUFFER_POOL_BUFFER_SIZE * 4 then BUFFER_POOL_BUFFER_SIZE * 4 else limit1

/-- Direct translation of `connection_calculate_queue_limit`
(`connection.c` lines 91-167).  `active_streams` is the value returned by the
collaborator `zerocopy_active_streams()`.  Returns the updated connection
(EWMA average and slow-client flags) together with the computed limit. -/
def connection_calculate_queue_limit (pool : PoolState) (active_streams : Nat)
    (c : ConnQueueState) (now_ms : Int) : ConnQueueState × Nat :=
  let active := if active_streams = 0 then 1 else active_streams
  let total_buffers := if pool.num_buffers ≠ 0 then pool.num_buffers
                       else BUFFER_POOL_INITIAL_SIZE
  let share0 := total_buffers / active
  let share_buffers := if share0 < CONN_QUEUE_MIN_BUFFERS then CONN_QUEUE_MIN_BUFFERS
                       else share0
  let used_buffers := if pool.num_free < pool.num_buffers
                      then pool.num_buffers - pool.num_free else 0
  let utilization : ℚ :=
    if 0 < pool.max_buffers then ratOfNat used_buffers / ratOfNat pool.max_buffers else 0
  let burst1 : ℚ :=
    if pool.max_buffers ≤ pool.num_buffers ∨ CONN_QUEUE_HIGH_UTIL_THRESHOLD ≤ utilization
    then CONN_QUEUE_BURST_FACTOR_CONGESTED else CONN_QUEUE_BURST_FACTOR
  let burst2 : ℚ :=
    if pool.num_free < pool.low_watermark / 2 ∨ CONN_QUEUE_DRAIN_UTIL_THRESHOLD ≤ utilization
    then CONN_QUEUE_BURST_FACTOR_DRAIN else burst1
  let fair_bytes := share_buffers * BUFFER_POOL_BUFFER_SIZE
  let queue_mem_bytes : ℚ := ratOfNat c.queue.length * ratOfNat BUFFER_POOL_BUFFER_SIZE
  let avg : ℚ :=
    if c.queue_avg_bytes ≤ 0 then queue_mem_bytes
    else (1 - CONN_QUEUE_EWMA_ALPHA) * c.queue_avg_bytes
         + CONN_QUEUE_EWMA_ALPHA * queue_mem_bytes
  let bursted_bytes := connection_compute_limit_bytes pool fair_bytes burst2
  let slow_threshold0 : ℚ := ratOfNat fair_bytes * CONN_QUEUE_SLOW_FACTOR
  let limit_based_threshold : ℚ := ratOfNat bursted_bytes * CONN_QUEUE_SLOW_LIMIT_FRAC
  let slow_threshold :=
    if limit_based_threshold < slow_threshold0 then limit_based_threshold
    else slow_threshold0
  let slow_exit0 : ℚ := ratOfNat fair_bytes * CONN_QUEUE_SLOW_EXIT_FACTOR
  let limit_exit_threshold : ℚ := ratOfNat bursted_bytes * CONN_QUEUE_SLOW_EXIT_LIMIT_FRAC
  let slow_exit1 :=
    if limit_exit_threshold < slow_exit0 then limit_exit_threshold else slow_exit0
  let slow_exit :=
    if slow_threshold ≤ slow_exit1 then slow_threshold * CONN_QUEUE_SLOW_EXIT_LIMIT_FRAC
    else slow_exit1
  let cand1 : Int :=
    if slow_threshold < avg then
      (if c.slow_candidate_since = 0 then now_ms else c.slow_candidate_since)
    else 0
  let act1 : Bool :=
    if slow_threshold < avg ∧ c.slow_candidate_since ≠ 0 ∧ c.slow_active = false ∧
       c.slow_candidate_since ≤ now_ms ∧
       CONN_QUEUE_SLOW_DEBOUNCE_MS ≤ now_ms - c.slow_candidate_since
    then true else c.slow_active
  let act2 : Bool := if act1 = true ∧ avg < slow_exit then false else act1
  let cand2 : Int := if act1 = true ∧ avg < slow_exit then 0 else cand1
  let burst3 : ℚ :=
    if act2 = true ∧ CONN_QUEUE_SLOW_CLAMP_FACTOR < burst2
    then CONN_QUEUE_SLOW_CLAMP_FACTOR else burst2
  let limit_bytes := connection_compute_limit_bytes pool fair_bytes burst3
  ({ c with queue_avg_bytes := avg, slow_active := act2, slow_candidate_since := cand2 },
   limit_bytes)

/-- Direct translation of `connection_record_drop` (`connection.c` lines 169-174). -/
def connection_record_drop (c : ConnQueueState) (len : Nat) : ConnQueueState :=
  { c with dropped_packets := c.dropped_packets + 1,
           dropped_bytes := c.dropped_bytes + len,
           backpressure_events := c.backpressure_events + 1 }

/-- Direct translation of `connection_queue_zerocopy` (`connection.c` lines
858-910).  The buffer is its payload list (`data_size` = `buf.length`).  The
collaborator `zerocopy_queue_add` is modelled from the spec (§4.2,
`queue_buf`: append, take a reference), i.e. the accepted buffer is appended
at the tail; the spec gives it no failure mode so its queue-full branch is not
modelled.  `connection_report_queue` and the epoll flush-threshold update only
touch collaborator state and are omitted. -/
def connection_queue_zerocopy (pool : PoolState) (active_streams : Nat)
    (c : ConnQueueState) (buf : List Nat) (now_ms : Int) : ConnQueueState × Int :=
  if buf.length = 0 then (c, 0)
  else
    let r := connection_calculate_queue_limit pool active_streams c now_ms
    let c1 := r.1
    let limit_bytes := r.2
    let queued_bytes := c1.queue.length * BUFFER_POOL_BUFFER_SIZE
    let projected_bytes := queued_bytes + buf.length
    let c2 := { c1 with queue_limit_bytes := limit_bytes }
    if limit_bytes < projected_bytes then
      (connection_record_drop c2 buf.length, -1)
    else
      let c3 := { c2 with queue := c2.queue ++ [buf] }
      let c4 := { c3 with queue_bytes_highwater :=
                    if c3.queue_bytes_highwater < queued_bytes then queued_bytes
                    else c3.queue_bytes_highwater }
      let c5 := { c4 with queue_buffers_highwater :=
                    if c4.queue_buffers_highwater < c4.queue.length then c4.queue.length
                    else c4.queue_buffers_highwater }
      (c5, 0)

def wPoolC1 : PoolState :=
  { num_buffers := 65, num_free := 0, max_buffers := 65, low_watermark := 0 }

def wBufFull : List Nat := List.replicate 2048 7

def wConnC1 : ConnQueueState :=
  { queue := [wBufFull, wBufFull, wBufFull, wBufFull],
    queue_limit_bytes := 0, queue_bytes_highwater := 0, queue_buffers_highwater := 0,
    dropped_packets := 0, dropped_bytes := 0, backpressure_events := 0,
    queue_avg_bytes := 0, slow_active := false, slow_candidate_since := 0 }

def wPoolC2 : PoolState :=
  { num_buffers := 100, num_free := 100, max_buffers := 200, low_watermark := 8 }

def wConnC2 : ConnQueueState :=
  { queue := [[1, 2, 3]],
    queue_limit_bytes := 0, queue_bytes_highwater := 0, queue_buffers_highwater := 0,
    dropped_packets := 0, dropped_bytes := 0, backpressure_events := 0,
    queue_avg_bytes := 0, slow_active := false, slow_candidate_since := 0 }

/-- Split a byte sequence into chunks of at most `BUFFER_POOL_BUFFER_SIZE`
bytes, in order; this is the chunking performed by the allocation loop of
`connection_queue_output` (`connection.c` lines 346-381). -/
def chunksOf (data : List Nat) : List (List Nat) :=
  if data = [] then []
  else data.take BUFFER_POOL_BUFFER_SIZE :: chunksOf (data.drop BUFFER_POOL_BUFFER_SIZE)
termination_by data.length
decreasing_by
  simp only [List.length_drop]
  have hpos : 0 < data.length := List.length_pos.mpr (by assumption)
  have hB : 0 < BUFFER_POOL_BUFFER_SIZE := by decide
  omega

/-- Per-iteration environment of `connection_queue_output`: whether the buffer
pool allocation (`connection_alloc_output_buffer`) succeeds, and the pool
state, active-stream count and clock observed by the inner
`connection_queue_zerocopy` call. -/
structure QueueOutputEnv where
  allocOk : Bool
  pool : PoolState
  active : Nat
  now_ms : Int
deriving Repr

/-- Direct translation of `connection_queue_output` (`connection.c` lines
337-384): split `data` into chunks of at most `BUFFER_POOL_BUFFER_SIZE` bytes;
for each chunk allocate a pool buffer (failure returns -1 with the already
queued chunks kept), copy the chunk in, and enqueue it with
`connection_queue_zerocopy` (rejection returns -1, the buffer is released).
`env i` is the environment seen by iteration `i`. -/
def connection_queue_output (env : Nat → QueueOutputEnv) (i : Nat)
    (c : ConnQueueState) (data : List Nat) : ConnQueueState × Int :=
  if data = [] then (c, 0)
  else if (env i).allocOk = false then (c, -1)
  else
    let chunk := data.take BUFFER_POOL_BUFFER_SIZE
    let r := connection_queue_zerocopy (env i).pool (env i).active c chunk (env i).now_ms
    if r.2 < 0 then (r.1, -1)
    else connection_queue_output env (i + 1) r.1 (data.drop BUFFER_POOL_BUFFER_SIZE)
termination_by data.length
decreasing_by
  simp only [List.length_drop]
  have hpos : 0 < data.length := List.length_pos.mpr (by assumption)
  have hB : 0 < BUFFER_POOL_BUFFER_SIZE := by decide
  omega

def wEnvC10 : Nat → QueueOutputEnv :=
  fun _ => { allocOk := true, pool := wPoolC2, active := 1, now_ms := 0 }

/-- Name of the auth-token query parameter (`"r2h-token"` in `connection.c`). -/
def r2hTokenName : List Char := ['r', '2', 'h', '-', 't', 'o', 'k', 'e', 'n']

/-- Name of the snapshot query parameter (`"snapshot"`). -/
def snapshotParamName : List Char := ['s', 'n', 'a', 'p', 's', 'h', 'o', 't']

/-- Default status route (`"status"`, `connection.c` line 589). -/
def defaultStatusRoute : List Char := ['s', 't', 'a', 't', 'u', 's']

/-- The playlist route (`"playlist.m3u"`, `connection.c` line 615). -/
def playlistRoute : List Char := ['p', 'l', 'a', 'y', 'l', 'i', 's', 't', '.', 'm', '3', 'u']

/-- Suffix appended to the status route for the SSE route (`"%s/sse"`). -/
def sseSuffix : List Char := ['/', 's', 's', 'e']

/-- SSE route used when the status route is empty (`"sse"`). -/
def sseBare : List Char := ['s', 's', 'e']

/-- Suffix appended to the status route for the API route (`"%s/api/"`). -/
def apiSuffix : List Char := ['/', 'a', 'p', 'i', '/']

/-- API route used when the status route is empty (`"api/"`). -/
def apiBare : List Char := ['a', 'p', 'i', '/']

/-- API name `"disconnect"`. -/
def disconnectName : List Char := ['d', 'i', 's', 'c', 'o', 'n', 'n', 'e', 'c', 't']

/-- API name `"log-level"`. -/
def logLevelName : List Char := ['l', 'o', 'g', '-', 'l', 'e', 'v', 'e', 'l']

/-- The `Accept` substring checked for snapshot detection (`"image/jpeg"`). -/
def imageJpegStr : List Char := ['i', 'm', 'a', 'g', 'e', '/', 'j', 'p', 'e', 'g']

/-- The `HEAD` method name. -/
def headMethod : List Char := ['H', 'E', 'A', 'D']

/-- The `GET` method name. -/
def getMethod : List Char := ['G', 'E', 'T']

/-- The string `"1"` compared against the snapshot parameter value. -/
def oneValue : List Char := ['1']

/-- Constant from `service.h` line 10. -/
def HTTP_URL_BUFFER_SIZE : Nat := 1024

/-- ASCII case-insensitive string equality, modelling `strcasecmp(a,b) == 0`. -/
def ciEq : List Char → List Char → Bool
  | [], [] => true
  | a :: as, b :: bs => (a.toLower == b.toLower) && ciEq as bs
  | _, _ => false

/-- The suffix after the first `'?'`, modelling `strchr(s, '?')` (`none` when
absent, i.e. `query_start == NULL`). -/
def findQuery : List Char → Option (List Char)
  | [] => none
  | c :: rest => if c = '?' then some rest else findQuery rest

/-- The part before the first `'?'`; together with `findQuery` this models the
`path_len` computation of `connection_route_and_start`. -/
def pathPart : List Char → List Char
  | [] => []
  | c :: rest => if c = '?' then [] else c :: pathPart rest

/-- The part before the first `':'`, modelling the Host-header port stripping
(`connection.c` lines 515-530; the 255-byte truncation of the stack buffer is
not modelled). -/
def upToColon : List Char → List Char
  | [] => []
  | c :: rest => if c = ':' then [] else c :: upToColon rest

/-- Value of an ASCII hex digit. -/
def hexVal (c : Char) : Option Nat :=
  if '0' ≤ c ∧ c ≤ '9' then some (c.toNat - '0'.toNat)
  else if 'a' ≤ c ∧ c ≤ 'f' then some (c.toNat - 'a'.toNat + 10)
  else if 'A' ≤ c ∧ c ≤ 'F' then some (c.toNat - 'A'.toNat + 10)
  else none

/-- Modelled from the spec: `http_url_decode` of `http.c` (source not
provided).  Standard percent-decoding, in place in C; `none` models its
failure return on an invalid escape.  Idempotent on strings without `%` as
the spec's round-trip property requires. -/
def http_url_decode : List Char → Option (List Char)
  | [] => some []
  | '%' :: h :: l :: rest =>
      match hexVal h, hexVal l with
      | some hv, some lv => (http_url_decode rest).map (Char.ofNat (hv * 16 + lv) :: ·)
      | _, _ => none
  | '%' :: _ => none
  | c :: rest => (http_url_decode rest).map (c :: ·)

/-- Split on a separator character (helper for the query-parameter scan). -/
def splitOnChar (sep : Char) : List Char → List (List Char)
  | [] => [[]]
  | c :: rest =>
    let r := splitOnChar sep rest
    if c = sep then [] :: r
    else match r with
      | [] => [[c]]
      | h :: t => (c :: h) :: t

/-- Key of a `key=value` query entry (the part before `'='`). -/
def entryKey : List Char → List Char
  | [] => []
  | c :: rest => if c = '=' then [] else c :: entryKey rest

/-- Value of a `key=value` query entry (`none` when there is no `'='`). -/
def entryVal : List Char → Option (List Char)
  | [] => none
  | c :: rest => if c = '=' then some rest else entryVal rest

/-- Modelled from the spec: `http_parse_query_param` of `http.c` (source not
provided).  Scans the `&`-separated query string for the first entry whose
key equals `name` and returns its raw value (empty for a bare key); `none`
models its non-zero failure return.  The C value-buffer truncation is not
modelled. -/
def http_parse_query_param (q : List Char) (name : List Char) : Option (List Char) :=
  match (splitOnChar '&' q).find? (fun e => entryKey e == name) with
  | none => none
  | some e =>
    match entryVal e with
    | some v => some v
    | none => some []

/-- Substring test, modelling `strstr(hay, needle) != NULL`. -/
def containsSub (hay needle : List Char) : Bool :=
  needle.isPrefixOf hay ||
    (match hay with
     | [] => false
     | _ :: t => containsSub t needle)

/-- Strip exactly one trailing slash, modelling `connection.c` lines 585-587. -/
def stripTrailingSlash (p : List Char) : List Char :=
  if p ≠ [] ∧ p.getLast? = some '/' then p.dropLast else p

/-- The configuration fields read by `connection_route_and_start`
(`config.*` in `connection.c`).  An empty list models an unset (`NULL` or
empty) `hostname`/`r2h_token`; `status_page_route = none` models `NULL`. -/
structure RouteConfig where
  hostname : List Char
  r2h_token : List Char
  status_page_route : Option (List Char)
  udpxy : Bool
  maxclients : Nat
  video_snapshot : Bool
deriving Repr

/-- The parsed HTTP request fields read by `connection_route_and_start`
(`c->http_req` and `c->client_addr_len > 0`). -/
structure RouteRequest where
  method : List Char
  url : List Char
  hostname : List Char
  user_agent : List Char
  accept : List Char
  x_request_snapshot : Bool
  hasClientAddr : Bool
deriving Repr

/-- Outcomes of the collaborator calls made by `connection_route_and_start`:
the configured service list (by URL), whether dynamic UDPxy service creation
succeeds, whether query-merge produces a service, whether the clone succeeds,
the status table's client count (`none` models `status_shared == NULL`), the
return of `status_handle_sse_init` and whether
`stream_context_init_for_worker` succeeds. -/
structure RouteEnv where
  serviceUrls : List (List Char)
  udpxyCreateOk : Bool
  queryMergeOk : Bool
  cloneOk : Bool
  totalClients : Option Nat
  sseInitRet : Int
  streamInitOk : Bool
deriving Repr

/-- Observable side effects of routing, in program order: error responses
(`http_send_NNN`), success headers (`send_http_headers`), dispatch to the
status / playlist / SSE / API collaborators, `service_free` of an owned
service, `status_register_client`, `stream_context_init_for_worker`, and
`zerocopy_register_stream_client`. -/
inductive RouteEffect
  | sendError (code : Nat)
  | sendHeaders (code : Nat) (mp2t : Bool)
  | statusPage
  | playlistServe
  | sseInit
  | apiDisconnect
  | apiLogLevel
  | freeService
  | registerClient
  | streamInit
  | registerStreamClient
deriving DecidableEq, Repr

/-- Connection state after routing (`c->state`): `route` models an unchanged
`CONN_ROUTE`, the others `CONN_CLOSING` and `CONN_STREAMING`. -/
inductive ConnState
  | route
  | closing
  | streaming
deriving DecidableEq, Repr

/-- Hostname check of `connection_route_and_start` (`connection.c` lines
503-541): skipped when no hostname is configured; otherwise the Host header,
stripped of its port, must match case-insensitively. -/
def hostnameOk (cfg : RouteConfig) (req : RouteRequest) : Bool :=
  if cfg.hostname = [] then true
  else if req.hostname = [] then false
  else ciEq (upToColon req.hostname) cfg.hostname

/-- Auth-token check of `connection_route_and_start` (`connection.c` lines
549-583): the query must contain an `r2h-token` parameter whose URL-decoded
value equals the configured token. -/
def tokenOk (cfg : RouteConfig) (query : Option (List Char)) : Bool :=
  match query with
  | none => false
  | some q =>
    match http_parse_query_param q r2hTokenName with
    | none => false
    | some v =>
      match http_url_decode v with
      | none => false
      | some d => d == cfg.r2h_token

/-- The status-page route (`connection.c` line 589: default `"status"`). -/
def statusRouteOf (cfg : RouteConfig) : List Char :=
  cfg.status_page_route.getD defaultStatusRoute

/-- The SSE route (`connection.c` lines 594-605). -/
def sseRouteOf (cfg : RouteConfig) : List Char :=
  if statusRouteOf cfg = [] then sseBare
  else statusRouteOf cfg ++ sseSuffix

/-- The API route prefix (`connection.c` lines 594-605). -/
def apiPrefixOf (cfg : RouteConfig) : List Char :=
  if statusRouteOf cfg = [] then apiBare
  else statusRouteOf cfg ++ apiSuffix

/-- Result of the service-resolution block of `connection_route_and_start`
(`connection.c` lines 654-722). -/
inductive ResolveOutcome
  | pathTooLong
  | decodeFail
  | notFound
  | cloneFail
  | found (owned : Bool)
deriving DecidableEq, Repr

/-- Service resolution (`connection.c` lines 654-722): length check against
the decode buffer, URL-decode, match against the configured service list
(query-merge or clone on a hit, both owned), dynamic UDPxy parsing otherwise. -/
def resolveService (cfg : RouteConfig) (env : RouteEnv) (path : List Char) :
    ResolveOutcome :=
  if HTTP_URL_BUFFER_SIZE ≤ path.length then .pathTooLong
  else
    match http_url_decode path with
    | none => .decodeFail
    | some decoded =>
      if env.serviceUrls.any (fun u => u == decoded) then
        if env.queryMergeOk then .found true
        else if env.cloneOk then .found true
        else .cloneFail
      else if cfg.udpxy ∧ env.udpxyCreateOk then .found true
      else .notFound

/-- The routed path: the request path after the leading `'/'`, up to the
query, with one trailing slash stripped. -/
def routedPath (req : RouteRequest) : List Char :=
  stripTrailingSlash (pathPart req.url.tail)

/-- The query-string of the request (after the first `'?'`). -/
def queryOf (req : RouteRequest) : Option (List Char) :=
  findQuery req.url.tail

/-- End of `connection_route_and_start` past the capacity check
(`connection.c` lines 750-855): snapshot detection, status registration,
success headers for non-snapshot requests, and stream-context initialization
(on failure the owned service is freed and the connection closes with -1). -/
def routeStream (cfg : RouteConfig) (env : RouteEnv) (req : RouteRequest)
    (query : Option (List Char)) (owned : Bool) :
    List RouteEffect × ConnState × Int :=
  let snap : Nat :=
    if cfg.video_snapshot = false then 0
    else if req.x_request_snapshot then 2
    else if req.accept ≠ [] ∧ containsSub req.accept imageJpegStr then 2
    else
      match query with
      | some q =>
        match http_parse_query_param q snapshotParamName with
        | some v => if v == oneValue then 1 else 0
        | none => 0
      | none => 0
  let regEff : List RouteEffect := if req.hasClientAddr then [.registerClient] else []
  let hdrEff : List RouteEffect := if snap = 0 then [.sendHeaders 200 true] else []
  if env.streamInitOk then
    (regEff ++ hdrEff ++ [.streamInit] ++
       (if snap = 0 then [.registerStreamClient] else []), .streaming, 0)
  else
    (regEff ++ hdrEff ++ [.streamInit] ++ (if owned then [.freeService] else []),
     .closing, -1)

/-- Direct translation of `connection_route_and_start` (`connection.c` lines
489-856), producing the effect trace, the connection state and the return
value.  Collaborator behaviour is supplied by `env`.  The error-response
helpers `http_send_NNN` of `http.c` (source not provided) are modelled from
the spec (§7: request-layer rejections are "mapped to HTTP status and close"),
i.e. they emit `sendError` and leave the connection closing. -/
def connection_route_and_start (cfg : RouteConfig) (env : RouteEnv)
    (req : RouteRequest) : List RouteEffect × ConnState × Int :=
  if req.url.head? ≠ some '/' then ([.sendError 400], .closing, 0)
  else if hostnameOk cfg req = false then ([.sendError 400], .closing, 0)
  else if cfg.r2h_token ≠ [] ∧ tokenOk cfg (queryOf req) = false then
    ([.sendError 401], .closing, 0)
  else if routedPath req == statusRouteOf cfg then ([.statusPage], .closing, 0)
  else if routedPath req == playlistRoute then ([.playlistServe], .closing, 0)
  else if routedPath req == sseRouteOf cfg then ([.sseInit], .route, env.sseInitRet)
  else if (apiPrefixOf cfg).isPrefixOf (routedPath req) then
    let apiName := (routedPath req).drop (apiPrefixOf cfg).length
    if apiName == disconnectName then ([.apiDisconnect], .closing, 0)
    else if apiName == logLevelName then ([.apiLogLevel], .closing, 0)
    else ([.sendError 404], .closing, 0)
  else
    match resolveService cfg env (routedPath req) with
    | .pathTooLong => ([.sendError 400], .closing, 0)
    | .decodeFail => ([.sendError 400], .closing, 0)
    | .cloneFail => ([.sendError 500], .closing, 0)
    | .notFound => ([.sendError 404], .closing, 0)
    | .found owned =>
      if ciEq req.method headMethod then
        ([.sendHeaders 200 true] ++ (if owned then [.freeService] else []),
         .closing, 0)
      else
        match env.totalClients with
        | some n =>
          if cfg.maxclients ≤ n then
            ([.sendError 503] ++ (if owned then [.freeService] else []),
             .closing, 0)
          else routeStream cfg env req (queryOf req) owned
        | none => routeStream cfg env req (queryOf req) owned

def wCfgOpen : RouteConfig :=
  { hostname := [], r2h_token := [], status_page_route := none,
    udpxy := false, maxclients := 10, video_snapshot := false }

def wCfgTok : RouteConfig :=
  { hostname := [], r2h_token := ['a', 'b', 'c'], status_page_route := none,
    udpxy := false, maxclients := 10, video_snapshot := false }

def wReqHead : RouteRequest :=
  { method := headMethod, url := ['/', 'c', 'h', '1'], hostname := [],
    user_agent := [], accept := [], x_request_snapshot := false,
    hasClientAddr := false }

def wReqGet : RouteRequest :=
  { method := getMethod, url := ['/', 'c', 'h', '1'], hostname := [],
    user_agent := [], accept := [], x_request_snapshot := false,
    hasClientAddr := false }

def wReqTok : RouteRequest :=
  { method := getMethod,
    url := ['/', 'c', 'h', '1', '?', 'r', '2', 'h', '-', 't', 'o', 'k', 'e', 'n',
            '=', 'a', 'b', 'c'],
    hostname := [], user_agent := [], accept := [], x_request_snapshot := false,
    hasClientAddr := false }

def wEnvRoute : RouteEnv :=
  { serviceUrls := [['c', 'h', '1']], udpxyCreateOk := false, queryMergeOk := false,
    cloneOk := true, totalClients := some 0, sseInitRet := 0, streamInitOk := true }

def wEnvFull : RouteEnv :=
  { serviceUrls := [['c', 'h', '1']], udpxyCreateOk := false, queryMergeOk := false,
    cloneOk := true, totalClients := some 11, sseInitRet := 0, streamInitOk := true }

/-- FCC session states, modelled from the spec §4.5 (`fcc.h` is not among the
provided sources; `stream.c` references `FCC_STATE_*`). -/
inductive FccState
  | init
  | requested
  | unicastPending
  | unicastActive
  | mcastRequested
  | mcastActive
deriving DecidableEq, Repr

/-- The stream-context fields read or written by `stream_tick` and
`stream_handle_fd_event` (`stream_context_t`).  Sockets are file descriptors
(`> 0` means active, as tested by the source). -/
structure StreamState where
  fcc_sock : Int
  mcast_sock : Int
  fcc_state : FccState
  unicast_start_time : Int
  last_fcc_data_time : Int
  last_mcast_data_time : Int
  last_mcast_rejoin_time : Int
  rtsp_socket : Int
  rtsp_rtp_socket : Int
  rtsp_rtcp_socket : Int
  rtsp_playing : Bool
  rtsp_transport_udp : Bool
  rtsp_keepalive_interval_ms : Int
  rtsp_session_set : Bool
  rtsp_last_keepalive_ms : Int
  reorder_waiting : Bool
  reorder_wait_start : Int
  snapshot_enabled : Bool
  snapshot_start_time : Int
  total_bytes_sent : Nat
  last_bytes_sent : Nat
  last_status_update : Int
deriving DecidableEq, Repr

/-- The timeout constants used by `stream_tick`, in the units the source uses.
`MCAST_TIMEOUT_SEC`, `FCC_TIMEOUT_*`, `RTP_REORDER_TIMEOUT_MS` and
`SNAPSHOT_TIMEOUT_SEC` come from headers not among the provided sources, so
their values are left abstract; `mcast_rejoin_interval` is the configuration
field read at `stream.c` line 386. -/
structure StreamConsts where
  mcast_rejoin_interval : Int
  mcastTimeoutSec : Int
  fccSignalingTimeoutMs : Int
  fccUnicastTimeoutMs : Int
  fccSyncWaitMs : Int
  reorderTimeoutMs : Int
  snapshotTimeoutMs : Int
deriving Repr

/-- Observable side effects of the stream functions: draining a packet into a
throwaway buffer, IGMP rejoin, `join_mcast_group`, epoll registration of the
new socket, RTSP keepalive, reorder timeout recovery, snapshot fallback,
status byte-counter update, `fcc_session_set_state`, and
`fcc_handle_sync_notification`. -/
inductive StreamEffect
  | drainRecv
  | rejoinGroup
  | joinGroup
  | epollRegister
  | keepalive
  | reorderRecovery
  | snapshotFallback
  | statusUpdate
  | fccStateSet (s : FccState)
  | syncNotify
deriving DecidableEq, Repr

/-- Collaborator outcomes for one `stream_tick` call: the result of
`rejoin_mcast_group`, the socket returned by `join_mcast_group`, and the
return of `rtsp_send_keepalive`. -/
structure TickEnv where
  rejoinOk : Bool
  joinSock : Int
  keepaliveRet : Int
deriving Repr

/-- Direct translation of `stream_join_mcast_group` (`stream.c` lines 36-60):
join the group (socket supplied by the collaborator), and on success register
it with epoll and reset the multicast data/rejoin timers.  The `exit` on
epoll-registration failure is a process abort and is not modelled.  Returns
the updated context, the socket, and the effects. -/
def stream_join_mcast_group (joinSock : Int) (ctx : StreamState) (now : Int) :
    StreamState × Int × List StreamEffect :=
  if 0 < joinSock then
    ({ ctx with last_mcast_data_time := now, last_mcast_rejoin_time := now },
     joinSock, [StreamEffect.joinGroup, StreamEffect.epollRegister])
  else (ctx, joinSock, [StreamEffect.joinGroup])

/-- Modelled from the spec (§4.5): `fcc_handle_sync_notification` of `fcc.c`
(source not provided) transitions `UNICAST_ACTIVE → MCAST_REQUESTED` and joins
the multicast group while unicast continues.  Only its state/join effect is
modelled. -/
def fcc_handle_sync_notification (joinSock : Int) (ctx : StreamState) (now : Int) :
    StreamState × List StreamEffect :=
  let ctx1 := { ctx with fcc_state := FccState.mcastRequested }
  if ctx1.mcast_sock = 0 then
    let r := stream_join_mcast_group joinSock ctx1 now
    ({ r.1 with mcast_sock := r.2.1 }, StreamEffect.syncNotify :: r.2.2)
  else (ctx1, [StreamEffect.syncNotify])

/-- Periodic multicast rejoin block of `stream_tick` (`stream.c` lines
385-403). -/
def tick_rejoin (k : StreamConsts) (env : TickEnv) (ctx : StreamState) (now : Int) :
    StreamState × List StreamEffect :=
  if 0 < k.mcast_rejoin_interval ∧ 0 < ctx.mcast_sock ∧
     k.mcast_rejoin_interval * 1000 ≤ now - ctx.last_mcast_rejoin_time then
    if env.rejoinOk then
      ({ ctx with last_mcast_rejoin_time := now }, [StreamEffect.rejoinGroup])
    else (ctx, [StreamEffect.rejoinGroup])
  else (ctx, [])

/-- FCC timeout block of `stream_tick` (`stream.c` lines 417-472). -/
def tick_fcc (k : StreamConsts) (env : TickEnv) (ctx : StreamState) (now : Int) :
    StreamState × List StreamEffect :=
  if 0 < ctx.fcc_sock then
    let elapsed := now - ctx.last_fcc_data_time
    if ctx.fcc_state = FccState.requested ∨ ctx.fcc_state = FccState.unicastPending then
      if k.fccSignalingTimeoutMs ≤ elapsed then
        let ctx1 := { ctx with fcc_state := FccState.mcastActive }
        let r := stream_join_mcast_group env.joinSock ctx1 now
        ({ r.1 with mcast_sock := r.2.1 },
         StreamEffect.fccStateSet FccState.mcastActive :: r.2.2)
      else (ctx, [])
    else if ctx.fcc_state = FccState.unicastActive ∨
            ctx.fcc_state = FccState.mcastRequested then
      let rA :=
        if k.fccUnicastTimeoutMs ≤ elapsed then
          let ctx1 := { ctx with fcc_state := FccState.mcastActive }
          if ctx1.mcast_sock = 0 then
            let r := stream_join_mcast_group env.joinSock ctx1 now
            ({ r.1 with mcast_sock := r.2.1 },
             StreamEffect.fccStateSet FccState.mcastActive :: r.2.2)
          else (ctx1, [StreamEffect.fccStateSet FccState.mcastActive])
        else (ctx, [])
      if rA.1.fcc_state = FccState.unicastActive ∧ 0 < rA.1.unicast_start_time ∧
         k.fccSyncWaitMs ≤ now - rA.1.unicast_start_time then
        let r := fcc_handle_sync_notification env.joinSock rA.1 now
        (r.1, rA.2 ++ r.2)
      else rA
    else (ctx, [])
  else (ctx, [])

/-- RTSP UDP keepalive block of `stream_tick` (`stream.c` lines 475-498). -/
def tick_keepalive (env : TickEnv) (ctx : StreamState) (now : Int) :
    StreamState × List StreamEffect :=
  if ctx.rtsp_playing ∧ ctx.rtsp_transport_udp ∧
     0 < ctx.rtsp_keepalive_interval_ms ∧ ctx.rtsp_session_set then
    let ctx1 := if ctx.rtsp_last_keepalive_ms = 0 then
                  { ctx with rtsp_last_keepalive_ms := now } else ctx
    if ctx1.rtsp_keepalive_interval_ms ≤ now - ctx1.rtsp_last_keepalive_ms then
      if env.keepaliveRet = 0 then
        ({ ctx1 with rtsp_last_keepalive_ms := now }, [StreamEffect.keepalive])
      else (ctx1, [StreamEffect.keepalive])
    else (ctx1, [])
  else (ctx, [])

/-- RTP reorder wait-timeout block of `stream_tick` (`stream.c` lines
501-514).  The recovery itself is a collaborator call
(`rtp_reorder_timeout_recovery`), modelled as an effect. -/
def tick_reorder (k : StreamConsts) (ctx : StreamState) (now : Int) :
    StreamState × List StreamEffect :=
  if ctx.reorder_waiting ∧ k.reorderTimeoutMs ≤ now - ctx.reorder_wait_start then
    ({ ctx with reorder_waiting := false }, [StreamEffect.reorderRecovery])
  else (ctx, [])

/-- Snapshot timeout block of `stream_tick` (`stream.c` lines 517-526).  The
fallback is a collaborator call (`snapshot_fallback_to_streaming`), modelled
as an effect; its mutation of the snapshot sub-state is not modelled. -/
def tick_snapshot (k : StreamConsts) (ctx : StreamState) (now : Int) :
    StreamState × List StreamEffect :=
  if ctx.snapshot_enabled ∧ k.snapshotTimeoutMs < now - ctx.snapshot_start_time then
    (ctx, [StreamEffect.snapshotFallback])
  else (ctx, [])

/-- Bandwidth/status update block of `stream_tick` (`stream.c` lines
529-548). -/
def tick_status (ctx : StreamState) (now : Int) : StreamState × List StreamEffect :=
  if ctx.snapshot_enabled = false ∧ 1000 ≤ now - ctx.last_status_update then
    ({ ctx with last_bytes_sent := ctx.total_bytes_sent, last_status_update := now },
     [StreamEffect.statusUpdate])
  else (ctx, [])

/-- Direct translation of `stream_tick` (`stream.c` lines 380-551): periodic
rejoin, multicast data-timeout (the only path returning -1, closing the
connection), FCC timeouts, RTSP keepalive, reorder timeout, snapshot timeout,
and the once-per-second status update.  Returns the updated context, the
return value and the effect trace. -/
def stream_tick (k : StreamConsts) (env : TickEnv) (ctx0 : StreamState) (now : Int) :
    StreamState × Int × List StreamEffect :=
  let r1 := tick_rejoin k env ctx0 now
  if 0 < r1.1.mcast_sock ∧ k.mcastTimeoutSec * 1000 ≤ now - r1.1.last_mcast_data_time then
    (r1.1, -1, r1.2)
  else
    let r2 := tick_fcc k env r1.1 now
    let r3 := tick_keepalive env r2.1 now
    let r4 := tick_reorder k r3.1 now
    let r5 := tick_snapshot k r4.1 now
    let r6 := tick_status r5.1 now
    (r6.1, 0, r1.2 ++ r2.2 ++ r3.2 ++ r4.2 ++ r5.2 ++ r6.2)

/-- Collaborator outcomes for one `stream_handle_fd_event` call: whether
`buffer_pool_alloc` succeeds, the `recv`/`recvfrom` result (with whether a
negative result is `EAGAIN`), the peer-address and peer-port tests against the
FCC server, the first payload byte, and the returns of the FCC / multicast /
RTSP sub-handlers (with whether an FCC redirect retry succeeds). -/
structure FdEventEnv where
  allocOk : Bool
  recvLen : Int
  recvEagain : Bool
  peerAddrOk : Bool
  peerPortCtrl : Bool
  peerPortMedia : Bool
  firstByte : Nat
  serverRespRet : Int
  redirectOk : Bool
  syncRet : Int
  unicastMediaRet : Int
  mcastActiveRet : Int
  mcastTransitionRet : Int
  rtspEventRet : Int
  rtspUdpRet : Int
deriving Repr

/-- Direct translation of `stream_handle_fd_event` (`stream.c` lines 85-278):
dispatch a ready fd to the FCC, multicast, RTSP control, RTSP RTP or RTSP
RTCP branch.  On buffer-pool exhaustion the FCC/multicast branches drop the
packet into a throwaway buffer, refresh the corresponding last-data timestamp
and return 0.  Sub-handler results are supplied by `env`; buffer refcounting
is collaborator state and is not modelled. -/
def stream_handle_fd_event (env : FdEventEnv) (ctx : StreamState) (fd : Int)
    (now : Int) : StreamState × Int × List StreamEffect :=
  if 0 < ctx.fcc_sock ∧ fd = ctx.fcc_sock then
    if env.allocOk = false then
      ({ ctx with last_fcc_data_time := now }, 0, [StreamEffect.drainRecv])
    else if env.recvLen < 0 ∧ env.recvEagain = false then (ctx, 0, [])
    else if env.peerAddrOk = false then (ctx, 0, [])
    else
      let ctx1 := { ctx with last_fcc_data_time := now }
      if env.peerPortCtrl then
        if env.firstByte = 0x83 then
          if env.serverRespRet = 1 then
            if env.redirectOk then (ctx1, 0, [])
            else (ctx1, -1, [])
          else (ctx1, env.serverRespRet, [])
        else if env.firstByte = 0x84 then (ctx1, env.syncRet, [])
        else (ctx1, 0, [])
      else if env.peerPortMedia then (ctx1, env.unicastMediaRet, [])
      else (ctx1, 0, [])
  else if 0 < ctx.mcast_sock ∧ fd = ctx.mcast_sock then
    if env.allocOk = false then
      ({ ctx with last_mcast_data_time := now }, 0, [StreamEffect.drainRecv])
    else if env.recvLen < 0 ∧ env.recvEagain = false then (ctx, 0, [])
    else
      let ctx1 := { ctx with last_mcast_data_time := now }
      match ctx1.fcc_state with
      | FccState.mcastActive => (ctx1, env.mcastActiveRet, [])
      | FccState.mcastRequested => (ctx1, env.mcastTransitionRet, [])
      | _ => (ctx1, 0, [])
  else if 0 < ctx.rtsp_socket ∧ fd = ctx.rtsp_socket then
    if env.rtspEventRet < 0 then (ctx, -1, [])
    else ({ ctx with total_bytes_sent := ctx.total_bytes_sent + env.rtspEventRet.toNat },
          0, [])
  else if 0 < ctx.rtsp_rtp_socket ∧ fd = ctx.rtsp_rtp_socket then
    if env.rtspUdpRet < 0 then (ctx, -1, [])
    else ({ ctx with total_bytes_sent := ctx.total_bytes_sent + env.rtspUdpRet.toNat },
          0, [])
  else if 0 < ctx.rtsp_rtcp_socket ∧ fd = ctx.rtsp_rtcp_socket then
    (ctx, 0, [StreamEffect.drainRecv])
  else (ctx, 0, [])

def wFdEnvNoBuf : FdEventEnv :=
  { allocOk := false, recvLen := 0, recvEagain := false, peerAddrOk := true,
    peerPortCtrl := true, peerPortMedia := false, firstByte := 0x83,
    serverRespRet := 0, redirectOk := true, syncRet := 0, unicastMediaRet := 0,
    mcastActiveRet := 0, mcastTransitionRet := 0, rtspEventRet := 0, rtspUdpRet := 0 }

def wStreamFcc : StreamState :=
  { fcc_sock := 5, mcast_sock := 0, fcc_state := FccState.requested,
    unicast_start_time := 0, last_fcc_data_time := 0, last_mcast_data_time := 0,
    last_mcast_rejoin_time := 0, rtsp_socket := 0, rtsp_rtp_socket := 0,
    rtsp_rtcp_socket := 0, rtsp_playing := false, rtsp_transport_udp := false,
    rtsp_keepalive_interval_ms := 0, rtsp_session_set := false,
    rtsp_last_keepalive_ms := 0, reorder_waiting := false, reorder_wait_start := 0,
    snapshot_enabled := false, snapshot_start_time := 0, total_bytes_sent := 0,
    last_bytes_sent := 0, last_status_update := 0 }

def wConstsC8 : StreamConsts :=
  { mcast_rejoin_interval := 0, mcastTimeoutSec := 5, fccSignalingTimeoutMs := 1000,
    fccUnicastTimeoutMs := 5000, fccSyncWaitMs := 5000, reorderTimeoutMs := 40,
    snapshotTimeoutMs := 5000 }

def wTickEnvC8 : TickEnv := { rejoinOk := true, joinSock := 7, keepaliveRet := 0 }

theorem ratOfNat_eq_cast (n : Nat) : ratOfNat n = (n : ℚ) := by
  simp [ratOfNat, Rat.mkRat_one]

theorem calculate_queue_limit_preserves_queue (pool : PoolState) (a : Nat)
    (c : ConnQueueState) (t : Int) :
    (connection_calculate_queue_limit pool a c t).1.queue = c.queue := rfl

theorem calculate_queue_limit_preserves_counters (pool : PoolState) (a : Nat)
    (c : ConnQueueState) (t : Int) :
    (connection_calculate_queue_limit pool a c t).1.dropped_packets = c.dropped_packets ∧
    (connection_calculate_queue_limit pool a c t).1.dropped_bytes = c.dropped_bytes ∧
    (connection_calculate_queue_limit pool a c t).1.backpressure_events =
      c.backpressure_events :=
  ⟨rfl, rfl, rfl⟩

theorem connection_queue_zerocopy_reject (pool : PoolState) (active : Nat)
    (c : ConnQueueState) (buf : List Nat) (now_ms : Int)
    (hlen : buf.length ≠ 0)
    (hover : (connection_calculate_queue_limit pool active c now_ms).2 <
             c.queue.length * BUFFER_POOL_BUFFER_SIZE + buf.length) :
    connection_queue_zerocopy pool active c buf now_ms =
      (connection_record_drop
        { (connection_calculate_queue_limit pool active c now_ms).1 with
          queue_limit_bytes := (connection_calculate_queue_limit pool active c now_ms).2 }
        buf.length, -1) := by
  unfold connection_queue_zerocopy
  rw [if_neg hlen]
  exact if_pos hover

theorem connection_queue_zerocopy_accept (pool : PoolState) (active : Nat)
    (c : ConnQueueState) (buf : List Nat) (now_ms : Int)
    (hlen : buf.length ≠ 0)
    (hok : ¬ ((connection_calculate_queue_limit pool active c now_ms).2 <
              c.queue.length * BUFFER_POOL_BUFFER_SIZE + buf.length)) :
    connection_queue_zerocopy pool active c buf now_ms =
      (let c1 := (connection_calculate_queue_limit pool active c now_ms).1
       let limit_bytes := (connection_calculate_queue_limit pool active c now_ms).2
       let queued_bytes := c1.queue.length * BUFFER_POOL_BUFFER_SIZE
       let c2 := { c1 with queue_limit_bytes := limit_bytes }
       let c3 := { c2 with queue := c2.queue ++ [buf] }
       let c4 := { c3 with queue_bytes_highwater :=
                     if c3.queue_bytes_highwater < queued_bytes then queued_bytes
                     else c3.queue_bytes_highwater }
       let c5 := { c4 with queue_buffers_highwater :=
                     if c4.queue_buffers_highwater < c4.queue.length then c4.queue.length
                     else c4.queue_buffers_highwater }
       (c5, 0)) := by
  unfold connection_queue_zerocopy
  rw [if_neg hlen]
  exact if_neg hok

theorem connection_queue_zerocopy_cases (pool : PoolState) (active : Nat)
    (c : ConnQueueState) (buf : List Nat) (now_ms : Int)
    (hlen : buf.length ≠ 0) :
    ((connection_queue_zerocopy pool active c buf now_ms).2 = 0 ∧
     (connection_queue_zerocopy pool active c buf now_ms).1.queue = c.queue ++ [buf] ∧
     (connection_queue_zerocopy pool active c buf now_ms).1.queue_limit_bytes =
       (connection_calculate_queue_limit pool active c now_ms).2 ∧
     c.queue.length * BUFFER_POOL_BUFFER_SIZE + buf.length ≤
       (connection_calculate_queue_limit pool active c now_ms).2) ∨
    ((connection_queue_zerocopy pool active c buf now_ms).2 = -1 ∧
     (connection_queue_zerocopy pool active c buf now_ms).1.queue = c.queue) := by
  by_cases h : (connection_calculate_queue_limit pool active c now_ms).2 <
      c.queue.length * BUFFER_POOL_BUFFER_SIZE + buf.length
  · right
    rw [connection_queue_zerocopy_reject pool active c buf now_ms hlen h]
    exact ⟨rfl, rfl⟩
  · left
    rw [connection_queue_zerocopy_accept pool active c buf now_ms hlen h]
    exact ⟨rfl, rfl, rfl, Nat.le_of_not_lt h⟩

/-- Claim C1: an enqueue via `connection_queue_zerocopy` whose projected
queued bytes (the queue's byte accounting `num_queued * BUFFER_SIZE` plus the
buffer's `data_size`) exceed the computed queue limit is rejected: it returns
-1, the buffer is not added to the queue, and `dropped_packets`,
`dropped_bytes`, `backpressure_events` are incremented by 1, `data_size`,
and 1 respectively. -/
theorem claim_C1_enqueue_overflow_rejected (pool : PoolState) (active : Nat)
    (c : ConnQueueState) (buf : List Nat) (now_ms : Int)
    (hlen : buf.length ≠ 0)
    (hover : (connection_calculate_queue_limit pool active c now_ms).2 <
             c.queue.length * BUFFER_POOL_BUFFER_SIZE + buf.length) :
    (connection_queue_zerocopy pool active c buf now_ms).2 = -1 ∧
    (connection_queue_zerocopy pool active c buf now_ms).1.queue = c.queue ∧
    (connection_queue_zerocopy pool active c buf now_ms).1.dropped_packets =
      c.dropped_packets + 1 ∧
    (connection_queue_zerocopy pool active c buf now_ms).1.dropped_bytes =
      c.dropped_bytes + buf.length ∧
    (connection_queue_zerocopy pool active c buf now_ms).1.backpressure_events =
      c.backpressure_events + 1 := by
  rw [connection_queue_zerocopy_reject pool active c buf now_ms hlen hover]
  exact ⟨rfl, rfl, rfl, rfl, rfl⟩

theorem claim_C1_witness :
    (connection_queue_zerocopy wPoolC1 1 wConnC1 [5] 0).2 = -1 ∧
    (connection_queue_zerocopy wPoolC1 1 wConnC1 [5] 0).1.queue = wConnC1.queue ∧
    (connection_queue_zerocopy wPoolC1 1 wConnC1 [5] 0).1.dropped_packets =
      wConnC1.dropped_packets + 1 ∧
    (connection_queue_zerocopy wPoolC1 1 wConnC1 [5] 0).1.dropped_bytes =
      wConnC1.dropped_bytes + [5].length ∧
    (connection_queue_zerocopy wPoolC1 1 wConnC1 [5] 0).1.backpressure_events =
      wConnC1.backpressure_events + 1 :=
  claim_C1_enqueue_overflow_rejected wPoolC1 1 wConnC1 [5] 0 (by decide)
    (by with_unfolding_all decide)

/-- Claim C2: immediately after a successful (accepted) enqueue via
`connection_queue_zerocopy`, the sum of the `data_size` of all queued items is
at most the queue limit computed for that enqueue (which is also the value
stored in `queue_limit_bytes`).  The hypothesis that every already-queued
item's `data_size` is at most `BUFFER_POOL_BUFFER_SIZE` is the structural
bound of the fixed-size pool buffers. -/
theorem claim_C2_queue_bytes_below_limit (pool : PoolState) (active : Nat)
    (c : ConnQueueState) (buf : List Nat) (now_ms : Int)
    (hbound : ∀ b ∈ c.queue, b.length ≤ BUFFER_POOL_BUFFER_SIZE)
    (hlen : buf.length ≠ 0)
    (hacc : (connection_queue_zerocopy pool active c buf now_ms).2 = 0) :
    ((connection_queue_zerocopy pool active c buf now_ms).1.queue.map List.length).sum ≤
      (connection_queue_zerocopy pool active c buf now_ms).1.queue_limit_bytes := by
  rcases connection_queue_zerocopy_cases pool active c buf now_ms hlen with
    ⟨_, hq, hl, hle⟩ | ⟨h1, _⟩
  · rw [hq, hl]
    have hsum : (c.queue.map List.length).sum ≤
        c.queue.length * BUFFER_POOL_BUFFER_SIZE := by
      have := List.sum_le_card_nsmul (c.queue.map List.length) BUFFER_POOL_BUFFER_SIZE
        (by simpa using hbound)
      simpa [smul_eq_mul, Nat.mul_comm] using this
    have : ((c.queue ++ [buf]).map List.length).sum =
        (c.queue.map List.length).sum + buf.length := by
      simp
    omega
  · rw [h1] at hacc
    exact absurd hacc (by decide)

theorem claim_C2_witness :
    ((connection_queue_zerocopy wPoolC2 1 wConnC2 [9, 9] 0).1.queue.map List.length).sum ≤
      (connection_queue_zerocopy wPoolC2 1 wConnC2 [9, 9] 0).1.queue_limit_bytes :=
  claim_C2_queue_bytes_below_limit wPoolC2 1 wConnC2 [9, 9] 0 (by decide) (by decide)
    (by with_unfolding_all decide)

/-- Claim C3: when `max_buffers > 0` and the hard cap
`max_buffers * BUFFER_SIZE - CONN_QUEUE_MIN_BUFFERS * BUFFER_SIZE` is positive,
the computed limit equals `fair_bytes * burst_factor` capped above by that hard
cap and floored below at `4 * BUFFER_SIZE`; and the limit is never below
`4 * BUFFER_SIZE` for any pool, fair share and burst factor. -/
theorem claim_C3_limit_formula (pool : PoolState) (fair_bytes : Nat) (burst_factor : ℚ)
    (hmax : 0 < pool.max_buffers)
    (hcap : CONN_QUEUE_MIN_BUFFERS * BUFFER_POOL_BUFFER_SIZE <
            pool.max_buffers * BUFFER_POOL_BUFFER_SIZE) :
    (connection_compute_limit_bytes pool fair_bytes burst_factor =
      max (min ((ratOfNat fair_bytes * burst_factor).floor.toNat)
               (pool.max_buffers * BUFFER_POOL_BUFFER_SIZE -
                CONN_QUEUE_MIN_BUFFERS * BUFFER_POOL_BUFFER_SIZE))
          (4 * BUFFER_POOL_BUFFER_SIZE)) ∧
    ∀ (p : PoolState) (f : Nat) (b : ℚ),
      4 * BUFFER_POOL_BUFFER_SIZE ≤ connection_compute_limit_bytes p f b := by
  constructor
  · simp only [connection_compute_limit_bytes, if_pos hmax, if_pos hcap]
    generalize (ratOfNat fair_bytes * burst_factor).floor.toNat = x
    generalize hG : pool.max_buffers * BUFFER_POOL_BUFFER_SIZE = G at hcap ⊢
    generalize hR : CONN_QUEUE_MIN_BUFFERS * BUFFER_POOL_BUFFER_SIZE = R at hcap ⊢
    have hB : BUFFER_POOL_BUFFER_SIZE * 4 = 4 * BUFFER_POOL_BUFFER_SIZE := Nat.mul_comm _ _
    split_ifs <;> omega
  · intro p f b
    simp only [connection_compute_limit_bytes]
    split_ifs <;> omega

theorem claim_C3_witness :
    (connection_compute_limit_bytes wPoolC2 131072 (3 / 2) =
      max (min ((ratOfNat 131072 * (3 / 2)).floor.toNat)
               (wPoolC2.max_buffers * BUFFER_POOL_BUFFER_SIZE -
                CONN_QUEUE_MIN_BUFFERS * BUFFER_POOL_BUFFER_SIZE))
          (4 * BUFFER_POOL_BUFFER_SIZE)) ∧
    ∀ (p : PoolState) (f : Nat) (b : ℚ),
      4 * BUFFER_POOL_BUFFER_SIZE ≤ connection_compute_limit_bytes p f b :=
  claim_C3_limit_formula wPoolC2 131072 (3 / 2) (by decide) (by decide)

theorem chunksOf_flatten (data : List Nat) : (chunksOf data).flatten = data := by
  induction data using chunksOf.induct with
  | case1 => simp [chunksOf]
  | case2 data hne ih =>
    rw [chunksOf, if_neg hne]
    simp [ih]

theorem chunksOf_length_le (data : List Nat) :
    ∀ ch ∈ chunksOf data, ch.length ≤ BUFFER_POOL_BUFFER_SIZE := by
  induction data using chunksOf.induct with
  | case1 => simp [chunksOf]
  | case2 data hne ih =>
    rw [chunksOf, if_neg hne]
    intro ch hch
    rcases List.mem_cons.mp hch with rfl | h
    · simp
    · exact ih ch h

theorem take_chunk_ne_nil (data : List Nat) (hne : data ≠ []) :
    data.take BUFFER_POOL_BUFFER_SIZE ≠ [] := by
  have hpos : 0 < data.length := List.length_pos.mpr hne
  have : 0 < (data.take BUFFER_POOL_BUFFER_SIZE).length := by
    simp only [List.length_take]
    have : 0 < BUFFER_POOL_BUFFER_SIZE := by decide
    omega
  exact List.length_pos.mp this

theorem chunksOf_cons (data : List Nat) (hne : data ≠ []) :
    chunksOf data = data.take BUFFER_POOL_BUFFER_SIZE ::
      chunksOf (data.drop BUFFER_POOL_BUFFER_SIZE) := by
  rw [chunksOf, if_neg hne]

theorem connection_queue_output_spec (env : Nat → QueueOutputEnv) (i : Nat)
    (c : ConnQueueState) (data : List Nat) :
    ((connection_queue_output env i c data).2 = 0 ∧
     (connection_queue_output env i c data).1.queue = c.queue ++ chunksOf data) ∨
    ((connection_queue_output env i c data).2 = -1 ∧
     ∃ k, k < (chunksOf data).length ∧
       (connection_queue_output env i c data).1.queue =
         c.queue ++ (chunksOf data).take k) := by
  induction i, c, data using connection_queue_output.induct env with
  | case1 i c =>
    left
    rw [connection_queue_output]
    simp [chunksOf]
  | case2 i c data hne halloc =>
    right
    rw [connection_queue_output, if_neg hne, if_pos halloc]
    refine ⟨rfl, 0, ?_, by simp⟩
    rw [chunksOf_cons data hne]
    simp
  | case3 i c data hne halloc chunk r hrej =>
    right
    have hr : (connection_queue_zerocopy (env i).pool (env i).active c
        (data.take BUFFER_POOL_BUFFER_SIZE) (env i).now_ms).2 < 0 := hrej
    rw [connection_queue_output, if_neg hne, if_neg (by simp [halloc]), if_pos hr]
    have hcases := connection_queue_zerocopy_cases (env i).pool (env i).active c
      (data.take BUFFER_POOL_BUFFER_SIZE) (env i).now_ms
      (by simpa [List.length_pos] using take_chunk_ne_nil data hne)
    rcases hcases with ⟨h0, _⟩ | ⟨_, hq⟩
    · rw [h0] at hr; exact absurd hr (by decide)
    · refine ⟨rfl, 0, ?_, by simpa using hq⟩
      rw [chunksOf_cons data hne]
      simp
  | case4 i c data hne halloc chunk r hacc ih =>
    have ha : ¬ (connection_queue_zerocopy (env i).pool (env i).active c
        (data.take BUFFER_POOL_BUFFER_SIZE) (env i).now_ms).2 < 0 := hacc
    rw [connection_queue_output, if_neg hne, if_neg (by simp [halloc]), if_neg ha]
    have hcases := connection_queue_zerocopy_cases (env i).pool (env i).active c
      (data.take BUFFER_POOL_BUFFER_SIZE) (env i).now_ms
      (by simpa [List.length_pos] using take_chunk_ne_nil data hne)
    rcases hcases with ⟨_, hq, _, _⟩ | ⟨hm1, _⟩
    · rcases ih with ⟨h0, hq2⟩ | ⟨hm, k, hk, hq2⟩
      · left
        refine ⟨h0, ?_⟩
        rw [hq2, hq, chunksOf_cons data hne]
        simp
      · right
        refine ⟨hm, k + 1, ?_, ?_⟩
        · rw [chunksOf_cons data hne]
          simpa using hk
        · rw [hq2, hq, chunksOf_cons data hne]
          simp
    · rw [hm1] at ha; exact absurd (by decide : (-1 : Int) < 0) ha

/-- Claim C10: `connection_queue_output` splits its input in order into chunks
of at most `BUFFER_POOL_BUFFER_SIZE` bytes; on success (return 0) exactly the
input bytes have been appended to the send queue in input order, and on
failure (return -1, from allocation failure or a rejected enqueue) the chunks
already queued before the failing chunk remain queued — the operation is not
atomic. -/
theorem claim_C10_queue_output_chunking (env : Nat → QueueOutputEnv)
    (c : ConnQueueState) (data : List Nat) :
    (∀ ch ∈ chunksOf data, ch.length ≤ BUFFER_POOL_BUFFER_SIZE) ∧
    (chunksOf data).flatten = data ∧
    ((connection_queue_output env 0 c data).2 = 0 →
       (connection_queue_output env 0 c data).1.queue = c.queue ++ chunksOf data) ∧
    ((connection_queue_output env 0 c data).2 ≠ 0 →
       (connection_queue_output env 0 c data).2 = -1 ∧
       ∃ k, k < (chunksOf data).length ∧
         (connection_queue_output env 0 c data).1.queue =
           c.queue ++ (chunksOf data).take k) := by
  refine ⟨chunksOf_length_le data, chunksOf_flatten data, ?_, ?_⟩
  · intro h
    rcases connection_queue_output_spec env 0 c data with ⟨_, hq⟩ | ⟨hm, _⟩
    · exact hq
    · rw [hm] at h
      exact absurd h (by decide)
  · intro h
    rcases connection_queue_output_spec env 0 c data with ⟨h0, _⟩ | ⟨hm, hk⟩
    · exact absurd h0 h
    · exact ⟨hm, hk⟩

theorem claim_C10_witness :
    (∀ ch ∈ chunksOf [1, 2, 3], ch.length ≤ BUFFER_POOL_BUFFER_SIZE) ∧
    (chunksOf [1, 2, 3]).flatten = [1, 2, 3] ∧
    ((connection_queue_output wEnvC10 0 wConnC2 [1, 2, 3]).2 = 0 →
       (connection_queue_output wEnvC10 0 wConnC2 [1, 2, 3]).1.queue =
         wConnC2.queue ++ chunksOf [1, 2, 3]) ∧
    ((connection_queue_output wEnvC10 0 wConnC2 [1, 2, 3]).2 ≠ 0 →
       (connection_queue_output wEnvC10 0 wConnC2 [1, 2, 3]).2 = -1 ∧
       ∃ k, k < (chunksOf [1, 2, 3]).length ∧
         (connection_queue_output wEnvC10 0 wConnC2 [1, 2, 3]).1.queue =
           wConnC2.queue ++ (chunksOf [1, 2, 3]).take k) :=
  claim_C10_queue_output_chunking wEnvC10 wConnC2 [1, 2, 3]

theorem routeStream_no_sendError (cfg : RouteConfig) (env : RouteEnv)
    (req : RouteRequest) (q : Option (List Char)) (owned : Bool) (k : Nat) :
    RouteEffect.sendError k ∉ (routeStream cfg env req q owned).1 := by
  simp only [routeStream]
  split_ifs <;> simp

theorem route_after_token_no_401 (cfg : RouteConfig) (env : RouteEnv)
    (req : RouteRequest)
    (hurl : req.url.head? = some '/')
    (hhost : hostnameOk cfg req = true)
    (htokpass : ¬ (cfg.r2h_token ≠ [] ∧ tokenOk cfg (queryOf req) = false)) :
    RouteEffect.sendError 401 ∉ (connection_route_and_start cfg env req).1 := by
  unfold connection_route_and_start
  rw [if_neg (by simp [hurl]), if_neg (by simp [hhost]), if_neg htokpass]
  repeat' split
  any_goals exact routeStream_no_sendError _ _ _ _ _ _
  any_goals simp
  all_goals split_ifs <;> simp

theorem route_head_eq (cfg : RouteConfig) (env : RouteEnv) (req : RouteRequest)
    (owned : Bool)
    (hurl : req.url.head? = some '/')
    (hhost : hostnameOk cfg req = true)
    (htok : cfg.r2h_token ≠ [] → tokenOk cfg (queryOf req) = true)
    (hs1 : (routedPath req == statusRouteOf cfg) = false)
    (hs2 : (routedPath req == playlistRoute) = false)
    (hs3 : (routedPath req == sseRouteOf cfg) = false)
    (hs4 : (apiPrefixOf cfg).isPrefixOf (routedPath req) = false)
    (hres : resolveService cfg env (routedPath req) = .found owned)
    (hmethod : ciEq req.method headMethod = true) :
    connection_route_and_start cfg env req =
      (RouteEffect.sendHeaders 200 true ::
        (if owned then [RouteEffect.freeService] else []), ConnState.closing, 0) := by
  unfold connection_route_and_start
  rw [if_neg (by simp [hurl]), if_neg (by simp [hhost]),
      if_neg (by rintro ⟨hne, hf⟩; rw [htok hne] at hf; exact Bool.noConfusion hf),
      if_neg (by rw [hs1]; decide), if_neg (by rw [hs2]; decide),
      if_neg (by rw [hs3]; decide), if_neg (by rw [hs4]; decide), hres]
  dsimp only
  rw [if_pos hmethod]
  rfl

/-- Claim C4: a `HEAD` request whose path resolves to a media service gets a
200 response with the media content type and no body, no stream context is
initialized (hence no upstream socket opened), and the connection transitions
to `CLOSING`. -/
theorem claim_C4_head_request (cfg : RouteConfig) (env : RouteEnv)
    (req : RouteRequest) (owned : Bool)
    (hurl : req.url.head? = some '/')
    (hhost : hostnameOk cfg req = true)
    (htok : cfg.r2h_token ≠ [] → tokenOk cfg (queryOf req) = true)
    (hs1 : (routedPath req == statusRouteOf cfg) = false)
    (hs2 : (routedPath req == playlistRoute) = false)
    (hs3 : (routedPath req == sseRouteOf cfg) = false)
    (hs4 : (apiPrefixOf cfg).isPrefixOf (routedPath req) = false)
    (hres : resolveService cfg env (routedPath req) = .found owned)
    (hmethod : ciEq req.method headMethod = true) :
    connection_route_and_start cfg env req =
      (RouteEffect.sendHeaders 200 true ::
        (if owned then [RouteEffect.freeService] else []), ConnState.closing, 0) ∧
    RouteEffect.streamInit ∉ (connection_route_and_start cfg env req).1 := by
  have heq := route_head_eq cfg env req owned hurl hhost htok hs1 hs2 hs3 hs4 hres hmethod
  refine ⟨heq, ?_⟩
  rw [heq]
  cases owned <;> decide

/-- Claim C9: a `HEAD` request that resolves to a media service never reaches
the capacity check: even when the active client count is at or above
`maxclients`, no 503 is sent and the HEAD branch responds 200 and closes. -/
theorem claim_C9_head_skips_capacity (cfg : RouteConfig) (env : RouteEnv)
    (req : RouteRequest) (owned : Bool) (n : Nat)
    (hurl : req.url.head? = some '/')
    (hhost : hostnameOk cfg req = true)
    (htok : cfg.r2h_token ≠ [] → tokenOk cfg (queryOf req) = true)
    (hs1 : (routedPath req == statusRouteOf cfg) = false)
    (hs2 : (routedPath req == playlistRoute) = false)
    (hs3 : (routedPath req == sseRouteOf cfg) = false)
    (hs4 : (apiPrefixOf cfg).isPrefixOf (routedPath req) = false)
    (hres : resolveService cfg env (routedPath req) = .found owned)
    (hmethod : ciEq req.method headMethod = true)
    (htotal : env.totalClients = some n)
    (hcap : cfg.maxclients ≤ n) :
    RouteEffect.sendError 503 ∉ (connection_route_and_start cfg env req).1 ∧
    connection_route_and_start cfg env req =
      (RouteEffect.sendHeaders 200 true ::
        (if owned then [RouteEffect.freeService] else []), ConnState.closing, 0) := by
  have heq := route_head_eq cfg env req owned hurl hhost htok hs1 hs2 hs3 hs4 hres hmethod
  refine ⟨?_, heq⟩
  rw [heq]
  cases owned <;> decide

theorem tokenOk_iff (cfg : RouteConfig) (qo : Option (List Char)) :
    tokenOk cfg qo = true ↔
      ∃ q v, qo = some q ∧
        http_parse_query_param q r2hTokenName = some v ∧
        http_url_decode v = some cfg.r2h_token := by
  unfold tokenOk
  split
  · simp
  · rename_i q
    split
    · rename_i hp
      simp [hp]
    · rename_i v hp
      split
      · rename_i hd
        simp [hp, hd]
      · rename_i d hd
        simp [hp, hd, beq_iff_eq]

/-- Claim C5: with a non-empty auth token configured, routing returns 401 and
closes unless the query string carries an `r2h-token` parameter whose
URL-decoded value equals the token exactly; a request with the correct token
passes the check (no 401 is ever sent). -/
theorem claim_C5_auth_token (cfg : RouteConfig) (env : RouteEnv)
    (req : RouteRequest)
    (hconf : cfg.r2h_token ≠ [])
    (hurl : req.url.head? = some '/')
    (hhost : hostnameOk cfg req = true) :
    (tokenOk cfg (queryOf req) = false →
      connection_route_and_start cfg env req =
        ([RouteEffect.sendError 401], ConnState.closing, 0)) ∧
    (tokenOk cfg (queryOf req) = true →
      RouteEffect.sendError 401 ∉ (connection_route_and_start cfg env req).1) ∧
    (tokenOk cfg (queryOf req) = true ↔
      ∃ q v, queryOf req = some q ∧
        http_parse_query_param q r2hTokenName = some v ∧
        http_url_decode v = some cfg.r2h_token) := by
  refine ⟨?_, ?_, ?_⟩
  · intro hf
    unfold connection_route_and_start
    rw [if_neg (by simp [hurl]), if_neg (by simp [hhost]), if_pos ⟨hconf, hf⟩]
  · intro ht
    exact route_after_token_no_401 cfg env req hurl hhost (by simp [ht])
  · exact tokenOk_iff cfg (queryOf req)

/-- Claim C6: a `GET` request routed to a media service, when the active
client count exceeds `maxclients`, gets 503, the owned service clone is
freed, and streaming is not initialized. -/
theorem claim_C6_capacity_503 (cfg : RouteConfig) (env : RouteEnv)
    (req : RouteRequest) (owned : Bool) (n : Nat)
    (hurl : req.url.head? = some '/')
    (hhost : hostnameOk cfg req = true)
    (htok : cfg.r2h_token ≠ [] → tokenOk cfg (queryOf req) = true)
    (hs1 : (routedPath req == statusRouteOf cfg) = false)
    (hs2 : (routedPath req == playlistRoute) = false)
    (hs3 : (routedPath req == sseRouteOf cfg) = false)
    (hs4 : (apiPrefixOf cfg).isPrefixOf (routedPath req) = false)
    (hres : resolveService cfg env (routedPath req) = .found owned)
    (hmethod : req.method = getMethod)
    (htotal : env.totalClients = some n)
    (hcap : cfg.maxclients < n) :
    connection_route_and_start cfg env req =
      (RouteEffect.sendError 503 ::
        (if owned then [RouteEffect.freeService] else []), ConnState.closing, 0) ∧
    RouteEffect.streamInit ∉ (connection_route_and_start cfg env req).1 := by
  have heq : connection_route_and_start cfg env req =
      (RouteEffect.sendError 503 ::
        (if owned then [RouteEffect.freeService] else []), ConnState.closing, 0) := by
    unfold connection_route_and_start
    rw [if_neg (by simp [hurl]), if_neg (by simp [hhost]),
        if_neg (by rintro ⟨hne, hf⟩; rw [htok hne] at hf; exact Bool.noConfusion hf),
        if_neg (by rw [hs1]; decide), if_neg (by rw [hs2]; decide),
        if_neg (by rw [hs3]; decide), if_neg (by rw [hs4]; decide), hres]
    dsimp only
    rw [if_neg (by rw [hmethod]; decide), htotal]
    dsimp only
    rw [if_pos (Nat.le_of_lt hcap)]
    rfl
  refine ⟨heq, ?_⟩
  rw [heq]
  cases owned <;> decide

theorem claim_C4_witness :
    connection_route_and_start wCfgOpen wEnvRoute wReqHead =
      (RouteEffect.sendHeaders 200 true ::
        (if true then [RouteEffect.freeService] else []), ConnState.closing, 0) ∧
    RouteEffect.streamInit ∉ (connection_route_and_start wCfgOpen wEnvRoute wReqHead).1 :=
  claim_C4_head_request wCfgOpen wEnvRoute wReqHead true (by decide) (by decide)
    (by decide) (by decide) (by decide) (by decide) (by decide) (by decide) (by decide)

theorem claim_C9_witness :
    RouteEffect.sendError 503 ∉
      (connection_route_and_start wCfgOpen wEnvFull wReqHead).1 ∧
    connection_route_and_start wCfgOpen wEnvFull wReqHead =
      (RouteEffect.sendHeaders 200 true ::
        (if true then [RouteEffect.freeService] else []), ConnState.closing, 0) :=
  claim_C9_head_skips_capacity wCfgOpen wEnvFull wReqHead true 11 (by decide) (by decide)
    (by decide) (by decide) (by decide) (by decide) (by decide) (by decide) (by decide)
    (by decide) (by decide)

theorem claim_C5_witness :
    (tokenOk wCfgTok (queryOf wReqTok) = false →
      connection_route_and_start wCfgTok wEnvRoute wReqTok =
        ([RouteEffect.sendError 401], ConnState.closing, 0)) ∧
    (tokenOk wCfgTok (queryOf wReqTok) = true →
      RouteEffect.sendError 401 ∉
        (connection_route_and_start wCfgTok wEnvRoute wReqTok).1) ∧
    (tokenOk wCfgTok (queryOf wReqTok) = true ↔
      ∃ q v, queryOf wReqTok = some q ∧
        http_parse_query_param q r2hTokenName = some v ∧
        http_url_decode v = some wCfgTok.r2h_token) :=
  claim_C5_auth_token wCfgTok wEnvRoute wReqTok (by decide) (by decide) (by decide)

theorem claim_C6_witness :
    connection_route_and_start wCfgOpen wEnvFull wReqGet =
      (RouteEffect.sendError 503 ::
        (if true then [RouteEffect.freeService] else []), ConnState.closing, 0) ∧
    RouteEffect.streamInit ∉ (connection_route_and_start wCfgOpen wEnvFull wReqGet).1 :=
  claim_C6_capacity_503 wCfgOpen wEnvFull wReqGet true 11 (by decide) (by decide)
    (by decide) (by decide) (by decide) (by decide) (by decide) (by decide) (by decide)
    (by decide) (by decide)

/-- Claim C7: on a readable FCC or multicast socket event, if the buffer-pool
allocation fails the handler drops the packet into a throwaway buffer
(`drainRecv`), refreshes the corresponding last-data timestamp to `now` as if
data had arrived, and returns 0 (success, connection kept). -/
theorem claim_C7_pool_exhaustion_drop (env : FdEventEnv) (ctx : StreamState)
    (fd : Int) (now : Int)
    (halloc : env.allocOk = false) :
    ((0 < ctx.fcc_sock ∧ fd = ctx.fcc_sock) →
      stream_handle_fd_event env ctx fd now =
        ({ ctx with last_fcc_data_time := now }, 0, [StreamEffect.drainRecv])) ∧
    (¬ (0 < ctx.fcc_sock ∧ fd = ctx.fcc_sock) →
      (0 < ctx.mcast_sock ∧ fd = ctx.mcast_sock) →
      stream_handle_fd_event env ctx fd now =
        ({ ctx with last_mcast_data_time := now }, 0, [StreamEffect.drainRecv])) := by
  constructor
  · intro hfcc
    unfold stream_handle_fd_event
    rw [if_pos hfcc, if_pos halloc]
  · intro hnot hmc
    unfold stream_handle_fd_event
    rw [if_neg hnot, if_pos hmc, if_pos halloc]

theorem claim_C7_witness :
    ((0 < wStreamFcc.fcc_sock ∧ (5 : Int) = wStreamFcc.fcc_sock) →
      stream_handle_fd_event wFdEnvNoBuf wStreamFcc 5 111 =
        ({ wStreamFcc with last_fcc_data_time := 111 }, 0, [StreamEffect.drainRecv])) ∧
    (¬ (0 < wStreamFcc.fcc_sock ∧ (5 : Int) = wStreamFcc.fcc_sock) →
      (0 < wStreamFcc.mcast_sock ∧ (5 : Int) = wStreamFcc.mcast_sock) →
      stream_handle_fd_event wFdEnvNoBuf wStreamFcc 5 111 =
        ({ wStreamFcc with last_mcast_data_time := 111 }, 0, [StreamEffect.drainRecv])) :=
  claim_C7_pool_exhaustion_drop wFdEnvNoBuf wStreamFcc 5 111 (by decide)

theorem tick_rejoin_preserves (k : StreamConsts) (env : TickEnv)
    (ctx : StreamState) (now : Int) :
    (tick_rejoin k env ctx now).1.fcc_sock = ctx.fcc_sock ∧
    (tick_rejoin k env ctx now).1.fcc_state = ctx.fcc_state ∧
    (tick_rejoin k env ctx now).1.last_fcc_data_time = ctx.last_fcc_data_time ∧
    (tick_rejoin k env ctx now).1.mcast_sock = ctx.mcast_sock ∧
    (tick_rejoin k env ctx now).1.last_mcast_data_time = ctx.last_mcast_data_time := by
  simp only [tick_rejoin]
  split_ifs <;> exact ⟨rfl, rfl, rfl, rfl, rfl⟩

theorem tick_keepalive_fcc_state (env : TickEnv) (ctx : StreamState) (now : Int) :
    (tick_keepalive env ctx now).1.fcc_state = ctx.fcc_state := by
  simp only [tick_keepalive]
  split_ifs <;> rfl

theorem tick_reorder_fcc_state (k : StreamConsts) (ctx : StreamState) (now : Int) :
    (tick_reorder k ctx now).1.fcc_state = ctx.fcc_state := by
  simp only [tick_reorder]
  split_ifs <;> rfl

theorem tick_snapshot_fcc_state (k : StreamConsts) (ctx : StreamState) (now : Int) :
    (tick_snapshot k ctx now).1.fcc_state = ctx.fcc_state := by
  simp only [tick_snapshot]
  split_ifs <;> rfl

theorem tick_status_fcc_state (ctx : StreamState) (now : Int) :
    (tick_status ctx now).1.fcc_state = ctx.fcc_state := by
  simp only [tick_status]
  split_ifs <;> rfl

theorem tick_fcc_signaling (k : StreamConsts) (env : TickEnv) (ctx : StreamState)
    (now : Int)
    (hsock : 0 < ctx.fcc_sock)
    (hstate : ctx.fcc_state = FccState.requested ∨
              ctx.fcc_state = FccState.unicastPending)
    (htime : k.fccSignalingTimeoutMs ≤ now - ctx.last_fcc_data_time) :
    (tick_fcc k env ctx now).1.fcc_state = FccState.mcastActive ∧
    StreamEffect.joinGroup ∈ (tick_fcc k env ctx now).2 := by
  simp only [tick_fcc]
  rw [if_pos hsock, if_pos hstate, if_pos htime]
  constructor
  · simp only [stream_join_mcast_group]
    split_ifs <;> rfl
  · simp only [stream_join_mcast_group]
    split_ifs <;> simp

/-- Claim C8: when the FCC session is in `REQUESTED` or `UNICAST_PENDING` and
the periodic tick sees the elapsed time since the last FCC data reach the
signalling timeout, the FCC state is set to `MCAST_ACTIVE` and the multicast
group is joined; the tick returns 0, so the connection is not closed by this
transition (the hypothesis excludes an independent multicast data-timeout,
which closes the connection before the FCC block is reached). -/
theorem claim_C8_fcc_signaling_fallback (k : StreamConsts) (env : TickEnv)
    (ctx : StreamState) (now : Int)
    (hsock : 0 < ctx.fcc_sock)
    (hstate : ctx.fcc_state = FccState.requested ∨
              ctx.fcc_state = FccState.unicastPending)
    (htime : k.fccSignalingTimeoutMs ≤ now - ctx.last_fcc_data_time)
    (hnomto : ¬ (0 < ctx.mcast_sock ∧
                 k.mcastTimeoutSec * 1000 ≤ now - ctx.last_mcast_data_time)) :
    (stream_tick k env ctx now).2.1 = 0 ∧
    (stream_tick k env ctx now).1.fcc_state = FccState.mcastActive ∧
    StreamEffect.joinGroup ∈ (stream_tick k env ctx now).2.2 := by
  obtain ⟨hp1, hp2, hp3, hp4, hp5⟩ := tick_rejoin_preserves k env ctx now
  have hno : ¬ (0 < (tick_rejoin k env ctx now).1.mcast_sock ∧
      k.mcastTimeoutSec * 1000 ≤ now - (tick_rejoin k env ctx now).1.last_mcast_data_time) := by
    rw [hp4, hp5]; exact hnomto
  obtain ⟨hf1, hf2⟩ := tick_fcc_signaling k env (tick_rejoin k env ctx now).1 now
    (by rw [hp1]; exact hsock) (by rw [hp2]; exact hstate) (by rw [hp3]; exact htime)
  simp only [stream_tick]
  rw [if_neg hno]
  refine ⟨rfl, ?_, ?_⟩
  · rw [tick_status_fcc_state, tick_snapshot_fcc_state, tick_reorder_fcc_state,
        tick_keepalive_fcc_state]
    exact hf1
  · simp only [List.mem_append]
    exact Or.inl (Or.inl (Or.inl (Or.inl (Or.inr hf2))))

theorem claim_C8_witness :
    (stream_tick wConstsC8 wTickEnvC8 wStreamFcc 2000).2.1 = 0 ∧
    (stream_tick wConstsC8 wTickEnvC8 wStreamFcc 2000).1.fcc_state =
      FccState.mcastActive ∧
    StreamEffect.joinGroup ∈ (stream_tick wConstsC8 wTickEnvC8 wStreamFcc 2000).2.2 :=
  claim_C8_fcc_signaling_fallback wConstsC8 wTickEnvC8 wStreamFcc 2000 (by decide)
    (by decide) (by decide) (by decide)
